import Mathlib

/-!
Shallow embedding of the LSDBLOX avatar render server
(`src/main.rs` and `src/utility.rs`).

The embedding covers the data model (`BodyColors`, `ItemAsset`,
`StaticMeshes`), the colour resolver (`from_brickcolor`, `from_hex`,
`replace_transparent_with_color`), mesh conversion (`process_mesh`),
asset loading (`load_static_mesh`, `load_resources_and_mesh`), the
scene-composition loop and draw sequence of `render_scene`, and the
dispatcher loop of `main`.

Modelling conventions:
* machine integers are `Nat` with explicit masking (`&&& 0xFF`,
  `% 256`, `% 65536`) at the places the Rust code casts;
* `f32` mesh coordinates are represented by `Int`: the code never
  computes with them, it only moves them between containers, so any
  scalar type with `0` and `1` is faithful;
* file-system reads, the framebuffer capture and the window are an
  explicit environment record `Env`;
* a Rust panic (`unreachable!()`, or an out-of-bounds slice index)
  is the `none` of an `Option` result; recoverable `Err`/`None`
  results of the source keep their own `Option` layer;
* rendering is observed as the list of `draw_mesh` calls (the draw
  trace) plus the reply string handed to the response channel.
-/

namespace AvatarServer

/-- Source `BodyColors` (utility.rs): six `u16` palette identifiers, one per
body part, in source field order. -/
structure BodyColors where
  trso : Nat
  head : Nat
  lleg : Nat
  larm : Nat
  rarm : Nat
  rleg : Nat
deriving DecidableEq

/-- Source `BodyColors::default()` (utility.rs): every part gets palette id 1001. -/
def bodyColorsDefault : BodyColors :=
  { trso := 1001, head := 1001, lleg := 1001, larm := 1001, rarm := 1001, rleg := 1001 }

/-- Source `HexBodyColors` (main.rs): six resolved 24-bit RGB values (`u32`). -/
structure HexBodyColors where
  head : Nat
  trso : Nat
  larm : Nat
  rarm : Nat
  lleg : Nat
  rleg : Nat
deriving DecidableEq

/-- Source `ItemAsset` (utility.rs): classification code (`i8`), optional
primary asset location, optional secondary (hat) texture path. -/
structure ItemAsset where
  item_type : Int
  location : Option String
  texture_path : Option String
deriving DecidableEq

/-- Source `tobj::Mesh` as consumed by this program: flat coordinate arrays
(3 per vertex position, 2 per texcoord, 3 per normal) and `u32`
triangle indices. -/
structure TobjMesh where
  positions : List Int
  texcoords : List Int
  normals : List Int
  indices : List Nat
deriving DecidableEq

/-- Source `StaticMeshes` (main.rs): the seven meshes preloaded at startup. -/
structure StaticMeshes where
  head : Option TobjMesh
  rarm : Option TobjMesh
  larm : Option TobjMesh
  rleg : Option TobjMesh
  lleg : Option TobjMesh
  trso : Option TobjMesh
  tshirt : Option TobjMesh

/-- A `macroquad::Texture2D` as built by this program: either
`from_rgba8`/`from_image` on explicit pixel data, or the compiled-in
checker fallback of `load_resources_and_mesh`. -/
inductive Texture
  | fromRgba8 (w h : Nat) (bytes : List Nat)
  | checker
deriving DecidableEq

/-- Source `macroquad::models::Vertex` as built in `process_mesh`. -/
structure Vertex where
  position : Int × Int × Int
  uv : Int × Int
  color : List Nat
  normal : Int × Int × Int × Int
deriving DecidableEq

/-- Source `macroquad::models::Mesh` as built in `process_mesh`. -/
structure MQMesh where
  vertices : List Vertex
  indices : List Nat
  texture : Option Texture
deriving DecidableEq

/-- The six base body parts drawn by `render_scene`. -/
inductive BodyPart
  | head
  | trso
  | larm
  | rarm
  | lleg
  | rleg
deriving DecidableEq

/-- One `draw_mesh` call, tagged by the call site that issued it:
the hat branch of the item loop, one of the six body-part draws, or
the final t-shirt overlay loop. -/
inductive DrawEvent
  | hat (m : MQMesh)
  | body (part : BodyPart) (m : MQMesh)
  | overlay (m : MQMesh)
deriving DecidableEq

/-- The role of a draw event, forgetting the mesh payload. -/
inductive DrawKind
  | hat
  | body (part : BodyPart)
  | overlay
deriving DecidableEq

/-- Role of a draw event. -/
def DrawEvent.kind : DrawEvent → DrawKind
  | .hat _ => .hat
  | .body p _ => .body p
  | .overlay _ => .overlay

/-- The environment of one render: file-system and framebuffer effects.
`processImg` is `utility::process_img` (`none` = `Err`), `loadObj` is
`tobj::load_obj` returning the mesh list (`none` = `Err`),
`pathExists` is `Path::exists`, and `screen` is the
width/height/bytes of `get_screen_data()`. -/
structure Env where
  processImg : String → Option (Nat × Nat × List Nat)
  loadObj : String → Option (List TobjMesh)
  pathExists : String → Bool
  screen : Nat × Nat × List Nat

/-- Source `RenderRequest` (main.rs) minus the reply channel and timestamp,
which carry no data used by composition. -/
structure RenderRequest where
  accessories : List ItemAsset
  bodycolors : Option BodyColors
  job_type : Nat

/-- Source `from_hex` (utility.rs): split a 24-bit RGB value into an opaque
RGBA quadruple. -/
def from_hex (hex : Nat) : List Nat :=
  [(hex >>> 16) &&& 0xFF, (hex >>> 8) &&& 0xFF, hex &&& 0xFF, 255]

/-- Source `from_brickcolor` (utility.rs): the fixed palette table, entry for
entry in source order; unknown identifiers give `none`. -/
def from_brickcolor (id : Nat) : Option Nat :=
  match id with
  | 1003 => some 0x111111
  | 148 => some 0x575857
  | 2 => some 0xA1A5A2
  | 1002 => some 0xCDCDCD
  | 40 => some 0xECECEC
  | 1001 => some 0xF8F8F8
  | 348 => some 0xEDEAEA
  | 349 => some 0xE9DADA
  | 1025 => some 0xFFC9C9
  | 337 => some 0xFF9494
  | 344 => some 0x965555
  | 1007 => some 0xA34B4B
  | 350 => some 0x883E3E
  | 339 => some 0x562424
  | 331 => some 0xFF5959
  | 332 => some 0x750000
  | 327 => some 0x970000
  | 1004 => some 0xFF0000
  | 360 => some 0x966766
  | 338 => some 0xBE6862
  | 153 => some 0x957977
  | 41 => some 0xCD544B
  | 21 => some 0xC4281C
  | 101 => some 0xDA867A
  | 47 => some 0xD9856C
  | 176 => some 0x97695B
  | 100 => some 0xEEC4B6
  | 123 => some 0xD36F4C
  | 216 => some 0x904C2A
  | 345 => some 0x8F4C2A
  | 193 => some 0xCF6024
  | 133 => some 0xD5733D
  | 192 => some 0x694028
  | 18 => some 0xCC8E69
  | 361 => some 0x564236
  | 359 => some 0xAF9483
  | 128 => some 0xAE7A59
  | 38 => some 0xA05F35
  | 355 => some 0x6C584B
  | 217 => some 0x7C5C46
  | 364 => some 0x5A4C42
  | 137 => some 0xE09864
  | 125 => some 0xEAB892
  | 25 => some 0x624732
  | 106 => some 0xDA8541
  | 12 => some 0xCB8442
  | 178 => some 0xB48455
  | 365 => some 0x6A3909
  | 1014 => some 0xAA5500
  | 1030 => some 0xFFCC99
  | 168 => some 0x756C62
  | 225 => some 0xEBB87F
  | 105 => some 0xE29B40
  | 121 => some 0xE7AC58
  | 36 => some 0xF3CF9B
  | 127 => some 0xDCBC81
  | 362 => some 0x7E683F
  | 351 => some 0xBC9B5D
  | 356 => some 0xA0844F
  | 346 => some 0xD3BE96
  | 352 => some 0xC7AC78
  | 224 => some 0xF0D5A0
  | 180 => some 0xD7A94B
  | 191 => some 0xE8AB2D
  | 108 => some 0x685C43
  | 138 => some 0x958A73
  | 209 => some 0xB08E44
  | 1017 => some 0xFFAF00
  | 1005 => some 0xFFB000
  | 333 => some 0xEFB838
  | 5 => some 0xD7C59A
  | 353 => some 0xCABFA3
  | 340 => some 0xF1E7C7
  | 334 => some 0xF8D96D
  | 24 => some 0xF5CD30
  | 190 => some 0xF9D62E
  | 226 => some 0xFDEA8D
  | 3 => some 0xF9E999
  | 341 => some 0xFEF3BB
  | 347 => some 0xE2DCBC
  | 157 => some 0xFFF67B
  | 49 => some 0xF8F184
  | 44 => some 0xF7F18D
  | 1008 => some 0xC1BE42
  | 1029 => some 0xFFFFCC
  | 1009 => some 0xFFFF00
  | 134 => some 0xD8DD56
  | 115 => some 0xC7D23C
  | 200 => some 0x828A5D
  | 120 => some 0xD9E4A7
  | 119 => some 0xA4BD47
  | 1022 => some 0x7F8E64
  | 319 => some 0xB9C4B1
  | 324 => some 0xA8BD99
  | 29 => some 0xA1C48C
  | 1021 => some 0x3A7D15
  | 317 => some 0x7C9C6B
  | 323 => some 0x94BE81
  | 6 => some 0xC2DAB8
  | 304 => some 0x2C651D
  | 310 => some 0x5B9A4C
  | 328 => some 0xB1E5A6
  | 318 => some 0x8AAB85
  | 313 => some 0x1F801D
  | 1028 => some 0xCCFFCC
  | 37 => some 0x4B974B
  | 1020 => some 0x00FF00
  | 309 => some 0x348E40
  | 301 => some 0x506D54
  | 48 => some 0x84B68D
  | 141 => some 0x27462D
  | 210 => some 0x709578
  | 28 => some 0x287F47
  | 151 => some 0x789082
  | 1027 => some 0x9FF3E9
  | 1018 => some 0x12EED4
  | 118 => some 0xB7D7D5
  | 1019 => some 0x00FFFF
  | 107 => some 0x008F9C
  | 116 => some 0x55A5AF
  | 1013 => some 0x04AFEC
  | 315 => some 0x0989CF
  | 232 => some 0x7DBBDD
  | 11 => some 0x80BBDC
  | 42 => some 0xC1DFF0
  | 329 => some 0x98C2DB
  | 45 => some 0xB4D2E4
  | 23 => some 0x0D69AC
  | 26 => some 0x1B2A35
  | 1024 => some 0xAFDDFF
  | 43 => some 0x7BB6E8
  | 212 => some 0x9FC3E9
  | 140 => some 0x203A56
  | 143 => some 0xCFE2F7
  | 306 => some 0x335882
  | 102 => some 0x6E99CA
  | 305 => some 0x527CAE
  | 336 => some 0xC7D4E4
  | 135 => some 0x74869D
  | 314 => some 0x9FADC0
  | 145 => some 0x7988A1
  | 195 => some 0x4667A4
  | 196 => some 0x23478B
  | 1012 => some 0x2154B9
  | 1011 => some 0x002060
  | 213 => some 0x6C81B7
  | 149 => some 0x161D32
  | 110 => some 0x435493
  | 112 => some 0x6874AC
  | 307 => some 0x102ADC
  | 303 => some 0x0010B0
  | 220 => some 0xA7A9CE
  | 126 => some 0xA5A5CB
  | 1010 => some 0x0000FF
  | 1026 => some 0xB1A7FF
  | 268 => some 0x342B75
  | 219 => some 0x6B629B
  | 1031 => some 0x6225D1
  | 308 => some 0x3D1585
  | 1006 => some 0xB480FF
  | 1023 => some 0x8C5B9F
  | 104 => some 0x6B327C
  | 218 => some 0x96709F
  | 322 => some 0x7B2F7B
  | 312 => some 0x592259
  | 316 => some 0x7B007B
  | 1015 => some 0xAA00AA
  | 198 => some 0x8E4285
  | 321 => some 0xA75E9B
  | 1032 => some 0xFF00BF
  | 124 => some 0x923978
  | 1016 => some 0xFF66CC
  | 343 => some 0xD490BD
  | 330 => some 0xFF98DC
  | 342 => some 0xE0B2D0
  | 22 => some 0xC470A0
  | 221 => some 0xCD6298
  | 158 => some 0xE1A4C2
  | 222 => some 0xE4ADC8
  | 113 => some 0xE5ADC8
  | 9 => some 0xE8BAC8
  | 223 => some 0xDC9095
  | _ => none

/-- The per-pixel loop of `replace_transparent_with_color`
(utility.rs): walk the buffer four bytes at a time
(`chunks_exact_mut(4)`), leaving any short tail unchanged.  The
`% 256` after the blend division is the `as u8` cast of the source. -/
def recolorPixels (bg_r bg_g bg_b : Nat) : List Nat → List Nat
  | r :: g :: b :: a :: rest =>
    (if a = 255 then [r, g, b, a]
     else if a = 0 then [bg_r, bg_g, bg_b, 255]
     else [((r * a + bg_r * (255 - a)) / 255) % 256,
           ((g * a + bg_g * (255 - a)) / 255) % 256,
           ((b * a + bg_b * (255 - a)) / 255) % 256,
           255])
    ++ recolorPixels bg_r bg_g bg_b rest
  | rest => rest

/-- Source `replace_transparent_with_color` (utility.rs). -/
def replace_transparent_with_color (bytes : List Nat) (hex_color : Nat) : List Nat :=
  recolorPixels ((hex_color >>> 16) &&& 0xFF) ((hex_color >>> 8) &&& 0xFF)
    (hex_color &&& 0xFF) bytes

/-- The `.chunks(2)` walk followed by `Vec2::new(x[0], x[1])` in `process_mesh`:
`none` when a trailing chunk of length 1 makes the `x[1]` index panic. -/
def toPairs : List Int → Option (List (Int × Int))
  | [] => some []
  | x :: y :: rest => (toPairs rest).map (fun ps => (x, y) :: ps)
  | _ => none

/-- The `.chunks(3)` walk followed by `Vec3::new(x[0], x[1], x[2])` in
`process_mesh`: `none` when a trailing chunk of length 1 or 2 makes an
index panic. -/
def toTriples : List Int → Option (List (Int × Int × Int))
  | [] => some []
  | x :: y :: z :: rest => (toTriples rest).map (fun ps => (x, y, z) :: ps)
  | _ => none

/-- Source `process_mesh` (utility.rs): rebuild the vertex list (UV fallback
`Vec2::ZERO`, normal fallback `vec4(0,1,0,1)`), narrow each `u32`
index to `u16` (`% 65536`), attach the texture.  `none` models the
panic of a short coordinate chunk; the `vertex_positions[i]` lookup is
in range because `i < count = vertex_positions.length`. -/
def process_mesh (mesh : TobjMesh) (texture : Texture) : Option MQMesh :=
  match toTriples mesh.positions with
  | none => none
  | some vertex_positions =>
    match toPairs mesh.texcoords with
    | none => none
    | some texcoords =>
      match toTriples mesh.normals with
      | none => none
      | some normals =>
        let count := vertex_positions.length
        let vertices := (List.range count).map (fun i =>
          { position := vertex_positions.getD i (0, 0, 0)
            uv := texcoords.getD i (0, 0)
            color := [255, 255, 255, 255]
            normal :=
              match normals.get? i with
              | some n => (n.1, n.2.1, n.2.2, 1)
              | none => (0, 1, 0, 1) : Vertex })
        some { vertices := vertices
               indices := mesh.indices.map (fun x => x % 65536)
               texture := some texture }

/-- Source `load_static_mesh` (utility.rs): first mesh of a successfully
loaded obj file, `none` on load failure or an empty mesh list. -/
def load_static_mesh (env : Env) (path : String) : Option TobjMesh :=
  match env.loadObj path with
  | some (m :: _) => some m
  | some [] => none
  | none => none

/-- Source `load_resources_and_mesh` (utility.rs): texture from the item's
texture path (checker fallback when the path is missing or decoding
fails), mesh from the item's mesh path under `/srv/http`.  Outer
`none` = panic inside `process_mesh`; inner `none` = the `Err` results
(`load_obj` failure, empty mesh list). -/
def load_resources_and_mesh (env : Env) (mesh_filename texture_filename : String) :
    Option (Option MQMesh) :=
  let texture_full_path := "/srv/http/" ++ texture_filename
  let mesh_full_path := "/srv/http/" ++ mesh_filename
  let texture :=
    if env.pathExists texture_full_path then
      match env.processImg texture_full_path with
      | some (w, h, bytes) => Texture.fromRgba8 (w % 65536) (h % 65536) bytes
      | none => Texture.checker
    else Texture.checker
  match env.loadObj mesh_full_path with
  | none => some none
  | some [] => some none
  | some (m :: _) =>
    match process_mesh m texture with
    | none => none
    | some mq => some (some mq)

/-- The eight-byte PNG file signature. -/
def pngSignature : List Nat := [137, 80, 78, 71, 13, 10, 26, 10]

/-- Big-endian bytes of a 32-bit value, as written in a PNG header. -/
def u32be (n : Nat) : List Nat :=
  [(n >>> 24) % 256, (n >>> 16) % 256, (n >>> 8) % 256, n % 256]

/-- Modelled from the spec: contract-level model of the external `png`
crate encoder used in `render_scene` (spec section 4.4: lossless, 8-bit
depth, RGBA colour).  `write_header` fails on a zero dimension;
`write_image_data` fails when the buffer length does not match
`4 * width * height`; a successful encode is the complete stream —
signature, header fields (the `8` is the bit depth, the `6` the RGBA
colour type) and the image data, whose compression is irrelevant to
every claim and therefore left as the identity. -/
def pngEncode (w h : Nat) (data : List Nat) : Option (List Nat) :=
  if w = 0 ∨ h = 0 then none
  else if data.length ≠ 4 * w * h then none
  else some (pngSignature ++ u32be w ++ u32be h ++ [8, 6] ++ data)

/-- The standard base64 alphabet. -/
def base64Alphabet : List Char :=
  "ABCDEFGHIJKLMNOPQRSTUVWXYZabcdefghijklmnopqrstuvwxyz0123456789+/".toList

/-- Character of a 6-bit group. -/
def b64char (n : Nat) : Char := base64Alphabet.getD n 'A'

/-- Modelled from the spec: the external `base64` STANDARD engine used
in `render_scene` — three input bytes become four alphabet characters,
a short final group is padded with `=`. -/
def base64EncodeChars : List Nat → List Char
  | [] => []
  | [b1] =>
    let x := b1 % 256
    [b64char (x >>> 2), b64char ((x &&& 3) <<< 4), '=', '=']
  | [b1, b2] =>
    let x := b1 % 256
    let y := b2 % 256
    [b64char (x >>> 2), b64char (((x &&& 3) <<< 4) ||| (y >>> 4)),
     b64char ((y &&& 15) <<< 2), '=']
  | b1 :: b2 :: b3 :: rest =>
    let x := b1 % 256
    let y := b2 % 256
    let z := b3 % 256
    b64char (x >>> 2) :: b64char (((x &&& 3) <<< 4) ||| (y >>> 4)) ::
      b64char (((y &&& 15) <<< 2) ||| (z >>> 6)) :: b64char (z &&& 63) ::
      base64EncodeChars rest

/-- Source `base64::engine::general_purpose::STANDARD.encode`. -/
def base64Encode (bytes : List Nat) : String := String.mk (base64EncodeChars bytes)

/-- Behaviour of `image::imageops::flip_vertical` on a `w × h` RGBA buffer: the rows
(4·w bytes each) of the pixel area in reverse order. -/
def flipVertical (w h : Nat) (bytes : List Nat) : List Nat :=
  (((List.range h).reverse).map (fun r => (bytes.drop (4 * w * r)).take (4 * w))).flatten

/-- The capture-and-encode tail of `render_scene` (main.rs lines
217 to 246): `RgbaImage::from_raw` succeeds when the buffer holds at
least `4 * width * height` bytes, the flipped pixel data is PNG-encoded
and base64-encoded; any failure yields the empty string. -/
def encodeResult (env : Env) : String :=
  let w := env.screen.1
  let h := env.screen.2.1
  let bytes := env.screen.2.2
  if 4 * w * h ≤ bytes.length then
    match pngEncode w h (flipVertical w h bytes) with
    | some png_data => base64Encode png_data
    | none => ""
  else ""

/-- The mutable locals of `render_scene`'s item loop: the per-part
textures, the (swap-able) head mesh, the deferred t-shirt meshes, plus
the `draw_mesh` calls already issued (hat draws). -/
structure SceneState where
  face_texture : Texture
  head_mesh_data : Option TobjMesh
  rarm_texture : Texture
  larm_texture : Texture
  rleg_texture : Texture
  lleg_texture : Texture
  trso_texture : Texture
  tshirt_meshes : List MQMesh
  events : List DrawEvent

/-- The locals of `render_scene` before the item loop (main.rs lines
79 to 105): the default face texture composited against the head
colour (1×1 red on failure), the static head mesh, and 1×1 flat-colour
textures for the five other parts. -/
def initState (env : Env) (colors : HexBodyColors) (static_meshes : StaticMeshes) :
    SceneState :=
  { face_texture :=
      match env.processImg "src/face.png" with
      | some (w, h, bytes) =>
        Texture.fromRgba8 (w % 65536) (h % 65536)
          (replace_transparent_with_color bytes colors.head)
      | none => Texture.fromRgba8 1 1 [255, 0, 0, 255]
    head_mesh_data := static_meshes.head
    rarm_texture := Texture.fromRgba8 1 1 (from_hex colors.rarm)
    larm_texture := Texture.fromRgba8 1 1 (from_hex colors.larm)
    rleg_texture := Texture.fromRgba8 1 1 (from_hex colors.rleg)
    lleg_texture := Texture.fromRgba8 1 1 (from_hex colors.lleg)
    trso_texture := Texture.fromRgba8 1 1 (from_hex colors.trso)
    tshirt_meshes := []
    events := [] }

/-- One iteration of the item loop of `render_scene` (main.rs lines
107 to 191).  Items with an empty location are skipped; per-type
effects follow the source `match`; every load failure leaves the state
unchanged; `none` models a panic inside `process_mesh`. -/
def processItem (env : Env) (colors : HexBodyColors) (static_meshes : StaticMeshes)
    (st : SceneState) (accessory : ItemAsset) : Option SceneState :=
  let loc := accessory.location.getD ""
  if loc = "" then some st
  else
    match accessory.item_type with
    | 9 =>
      match load_resources_and_mesh env loc (accessory.texture_path.getD "") with
      | none => none
      | some none => some st
      | some (some m) => some { st with events := st.events ++ [DrawEvent.hat m] }
    | 8 =>
      match load_static_mesh env ("/srv/http/" ++ loc) with
      | some new_mesh => some { st with head_mesh_data := some new_mesh }
      | none => some st
    | 7 =>
      match env.processImg ("/srv/http/" ++ loc) with
      | some (w, h, bytes) =>
        some { st with
          face_texture :=
            Texture.fromRgba8 (w % 65536) (h % 65536)
              (replace_transparent_with_color bytes colors.head) }
      | none => some st
    | 6 =>
      match env.processImg ("/srv/http/" ++ loc) with
      | some (w, h, bytes) =>
        some { st with
          rleg_texture :=
            Texture.fromRgba8 (w % 65536) (h % 65536)
              (replace_transparent_with_color bytes colors.rleg)
          lleg_texture :=
            Texture.fromRgba8 (w % 65536) (h % 65536)
              (replace_transparent_with_color bytes colors.lleg) }
      | none => some st
    | 5 =>
      match env.processImg ("/srv/http/" ++ loc) with
      | some (w, h, bytes) =>
        some { st with
          trso_texture :=
            Texture.fromRgba8 (w % 65536) (h % 65536)
              (replace_transparent_with_color bytes colors.trso)
          rarm_texture :=
            Texture.fromRgba8 (w % 65536) (h % 65536)
              (replace_transparent_with_color bytes colors.rarm)
          larm_texture :=
            Texture.fromRgba8 (w % 65536) (h % 65536)
              (replace_transparent_with_color bytes colors.larm) }
      | none => some st
    | 4 =>
      match env.processImg ("/srv/http/" ++ loc) with
      | some (w, h, bytes) =>
        match static_meshes.tshirt with
        | some tshirt_mesh =>
          match process_mesh tshirt_mesh (Texture.fromRgba8 (w % 65536) (h % 65536) bytes) with
          | none => none
          | some final_mesh =>
            some { st with tshirt_meshes := st.tshirt_meshes ++ [final_mesh] }
        | none => some st
      | none => some st
    | _ => some st

/-- The item loop: left fold of `processItem` over the accessory list,
aborting on a panic. -/
def foldItems (env : Env) (colors : HexBodyColors) (static_meshes : StaticMeshes) :
    SceneState → List ItemAsset → Option SceneState
  | st, [] => some st
  | st, a :: rest =>
    match processItem env colors static_meshes st a with
    | none => none
    | some st2 => foldItems env colors static_meshes st2 rest

/-- One conditional body-part draw (main.rs lines 195 to 212): nothing
when the mesh is absent, a single tagged `draw_mesh` call otherwise;
`none` when `process_mesh` panics. -/
def drawPart (part : BodyPart) (mesh : Option TobjMesh) (tex : Texture) :
    Option (List DrawEvent) :=
  match mesh with
  | none => some []
  | some m =>
    match process_mesh m tex with
    | none => none
    | some mq => some [DrawEvent.body part mq]

/-- Sequence a list of conditional body-part draws, left to right. -/
def drawParts : List (BodyPart × Option TobjMesh × Texture) → Option (List DrawEvent)
  | [] => some []
  | (p, om, t) :: rest =>
    match drawPart p om t, drawParts rest with
    | some es, some rs => some (es ++ rs)
    | _, _ => none

/-- The six body-part draws of `render_scene` in source order: torso,
right arm, left arm, head, left leg, right leg. -/
def bodyEvents (static_meshes : StaticMeshes) (st : SceneState) :
    Option (List DrawEvent) :=
  drawParts
    [(BodyPart.trso, static_meshes.trso, st.trso_texture),
     (BodyPart.rarm, static_meshes.rarm, st.rarm_texture),
     (BodyPart.larm, static_meshes.larm, st.larm_texture),
     (BodyPart.head, st.head_mesh_data, st.face_texture),
     (BodyPart.lleg, static_meshes.lleg, st.lleg_texture),
     (BodyPart.rleg, static_meshes.rleg, st.rleg_texture)]

/-- Source `render_scene` (main.rs): run the item loop, draw the body parts,
draw the deferred t-shirt overlays, capture and encode.  The result is
the draw trace plus the returned string; `none` models a panic. -/
def render_scene (env : Env) (accessories : List ItemAsset) (colors : HexBodyColors)
    (static_meshes : StaticMeshes) : Option (List DrawEvent × String) :=
  match foldItems env colors static_meshes (initState env colors static_meshes) accessories with
  | none => none
  | some st =>
    match bodyEvents static_meshes st with
    | none => none
    | some bodies =>
      some (st.events ++ bodies ++ st.tshirt_meshes.map DrawEvent.overlay,
            encodeResult env)

/-- The colour resolution of the dispatcher's job-kind-1 arm (main.rs
lines 417 to 424): `from_brickcolor(id).unwrap_or_default()` per part —
the `u32` default is `0`. -/
def resolveBodyColors (body_colors : BodyColors) : HexBodyColors :=
  { head := (from_brickcolor body_colors.head).getD 0
    trso := (from_brickcolor body_colors.trso).getD 0
    larm := (from_brickcolor body_colors.larm).getD 0
    rarm := (from_brickcolor body_colors.rarm).getD 0
    lleg := (from_brickcolor body_colors.lleg).getD 0
    rleg := (from_brickcolor body_colors.rleg).getD 0 }

/-- The fixed neutral palette of the job-kind-2 arm (main.rs line 441):
mid-grey `0xBFBFBF` for every part. -/
def greyColors : HexBodyColors :=
  { trso := 0xbfbfbf, head := 0xbfbfbf, lleg := 0xbfbfbf,
    larm := 0xbfbfbf, rarm := 0xbfbfbf, rleg := 0xbfbfbf }

/-- One iteration of the dispatcher loop of `main` (main.rs lines
413 to 452) on a popped job.  `some (trace, reply)` is the draw trace
and the string sent once on the job's reply channel; `none` models the
`unreachable!()` panic, which aborts the render thread and sends no
reply at all. -/
def dispatch (env : Env) (static_meshes : StaticMeshes) (work : RenderRequest) :
    Option (List DrawEvent × String) :=
  match work.job_type with
  | 1 =>
    let body_colors := work.bodycolors.getD bodyColorsDefault
    render_scene env work.accessories (resolveBodyColors body_colors) static_meshes
  | 2 =>
    match work.accessories.head? with
    | some accessory => render_scene env [accessory] greyColors static_meshes
    | none => none
  | _ => none

def vertexDefault : Vertex :=
  { position := (0, 0, 0), uv := (0, 0), color := [], normal := (0, 0, 0, 0) }

def meshC9 : TobjMesh :=
  { positions := [0, 0, 0, 1, 1, 1], texcoords := [], normals := [], indices := [65541] }

def mqC9 : MQMesh :=
  { vertices :=
      [{ position := (0, 0, 0), uv := (0, 0), color := [255, 255, 255, 255],
         normal := (0, 1, 0, 1) },
       { position := (1, 1, 1), uv := (0, 0), color := [255, 255, 255, 255],
         normal := (0, 1, 0, 1) }]
    indices := [5]
    texture := some Texture.checker }

/-- Well-formed flat attribute arrays: what `tobj`'s loader guarantees
for every mesh it returns. -/
def MeshWF (m : TobjMesh) : Prop :=
  3 ∣ m.positions.length ∧ 2 ∣ m.texcoords.length ∧ 3 ∣ m.normals.length

instance (m : TobjMesh) : Decidable (MeshWF m) := by
  unfold MeshWF; infer_instance

/-- The fixed body-part kind sequence of the six draw sites. -/
def bodyKindOrder : List DrawKind :=
  [DrawKind.body BodyPart.trso, DrawKind.body BodyPart.rarm,
   DrawKind.body BodyPart.larm, DrawKind.body BodyPart.head,
   DrawKind.body BodyPart.lleg, DrawKind.body BodyPart.rleg]

def triMesh : TobjMesh :=
  { positions := [0, 0, 0, 1, 0, 0, 0, 1, 0], texcoords := [], normals := [],
    indices := [0, 1, 2] }

def envC3 : Env :=
  { processImg := fun _ => none
    loadObj := fun p => if p = "/srv/http/hat.obj" then some [triMesh] else none
    pathExists := fun _ => false
    screen := (0, 0, []) }

def smAll : StaticMeshes :=
  { head := some triMesh, rarm := some triMesh, larm := some triMesh,
    rleg := some triMesh, lleg := some triMesh, trso := some triMesh,
    tshirt := some triMesh }

def hatItem : ItemAsset := { item_type := 9, location := some "hat.obj", texture_path := none }

def greyTex : Texture := Texture.fromRgba8 1 1 (from_hex 0xbfbfbf)

def faceTexRed : Texture := Texture.fromRgba8 1 1 [255, 0, 0, 255]

def mqTri (t : Texture) : MQMesh :=
  { vertices :=
      [{ position := (0, 0, 0), uv := (0, 0), color := [255, 255, 255, 255],
         normal := (0, 1, 0, 1) },
       { position := (1, 0, 0), uv := (0, 0), color := [255, 255, 255, 255],
         normal := (0, 1, 0, 1) },
       { position := (0, 1, 0), uv := (0, 0), color := [255, 255, 255, 255],
         normal := (0, 1, 0, 1) }]
    indices := [0, 1, 2]
    texture := some t }

def traceC3 : List DrawEvent :=
  [DrawEvent.hat (mqTri Texture.checker),
   DrawEvent.body BodyPart.trso (mqTri greyTex),
   DrawEvent.body BodyPart.rarm (mqTri greyTex),
   DrawEvent.body BodyPart.larm (mqTri greyTex),
   DrawEvent.body BodyPart.head (mqTri faceTexRed),
   DrawEvent.body BodyPart.lleg (mqTri greyTex),
   DrawEvent.body BodyPart.rleg (mqTri greyTex)]

def envT : Env :=
  { processImg := fun p => if p = "/srv/http/t.png" then some (1, 1, [1, 2, 3, 4]) else none
    loadObj := fun _ => none
    pathExists := fun _ => false
    screen := (0, 0, []) }

def tshirtItem : ItemAsset := { item_type := 4, location := some "t.png", texture_path := none }

def traceC8 : List DrawEvent :=
  [DrawEvent.body BodyPart.trso (mqTri greyTex),
   DrawEvent.body BodyPart.rarm (mqTri greyTex),
   DrawEvent.body BodyPart.larm (mqTri greyTex),
   DrawEvent.body BodyPart.head (mqTri faceTexRed),
   DrawEvent.body BodyPart.lleg (mqTri greyTex),
   DrawEvent.body BodyPart.rleg (mqTri greyTex),
   DrawEvent.overlay (mqTri (Texture.fromRgba8 1 1 [1, 2, 3, 4]))]

/-- Pointwise lifting of a relation to `Option`, matching success and
failure shapes. -/
def OptionRel {α β : Type} (R : α → β → Prop) : Option α → Option β → Prop
  | some a, some b => R a b
  | none, none => True
  | _, _ => False

/-- Agreement of two loop states on every component except the torso
texture. -/
def AgreeExceptTrso (st1 st2 : SceneState) : Prop :=
  st1.face_texture = st2.face_texture ∧ st1.head_mesh_data = st2.head_mesh_data ∧
  st1.rarm_texture = st2.rarm_texture ∧ st1.larm_texture = st2.larm_texture ∧
  st1.rleg_texture = st2.rleg_texture ∧ st1.lleg_texture = st2.lleg_texture ∧
  st1.tshirt_meshes = st2.tshirt_meshes ∧ st1.events = st2.events

def envS : Env :=
  { processImg := fun p => if p = "/srv/http/s.png" then some (1, 1, [5, 5, 5, 0]) else none
    loadObj := fun _ => none
    pathExists := fun _ => false
    screen := (0, 0, []) }

def shirtItem : ItemAsset := { item_type := 5, location := some "s.png", texture_path := none }

def altColors : HexBodyColors := { greyColors with trso := 0x111111 }

def smNone : StaticMeshes :=
  { head := none, rarm := none, larm := none, rleg := none, lleg := none,
    trso := none, tshirt := none }

def envNone : Env :=
  { processImg := fun _ => none
    loadObj := fun _ => none
    pathExists := fun _ => false
    screen := (0, 0, []) }

/-- Well-formedness of the seven preloaded meshes, as `tobj`'s loader
guarantees at startup. -/
def StaticMeshesWF (sm : StaticMeshes) : Prop :=
  (∀ m, sm.head = some m → MeshWF m) ∧ (∀ m, sm.rarm = some m → MeshWF m) ∧
  (∀ m, sm.larm = some m → MeshWF m) ∧ (∀ m, sm.rleg = some m → MeshWF m) ∧
  (∀ m, sm.lleg = some m → MeshWF m) ∧ (∀ m, sm.trso = some m → MeshWF m) ∧
  (∀ m, sm.tshirt = some m → MeshWF m)

def envW : Env :=
  { processImg := fun _ => none
    loadObj := fun _ => none
    pathExists := fun _ => false
    screen := (1, 1, [0, 0, 0, 0]) }

/-- Environment whose obj files all load but contain no meshes. -/
def envE : Env :=
  { processImg := fun _ => none
    loadObj := fun _ => some []
    pathExists := fun _ => false
    screen := (1, 1, [0, 0, 0, 0]) }

theorem recolorPixels_nil (b1 b2 b3 : Nat) : recolorPixels b1 b2 b3 [] = [] := rfl

theorem drop_four_append {α : Type} (p q : List α) (hp : p.length = 4) (n : Nat) :
    (p ++ q).drop (4 + n) = q.drop n := by
  rw [← hp]; exact List.drop_append n

theorem drop_four_cons {α : Type} (a b c d : α) (l : List α) (n : Nat) :
    (a :: b :: c :: d :: l).drop (4 + n) = l.drop n :=
  drop_four_append [a, b, c, d] l rfl n

theorem get?_add_four {α : Type} (p q : List α) (hp : p.length = 4) (n : Nat) :
    (p ++ q).get? (4 + n) = q.get? n := by
  simp only [List.get?_eq_getElem?]
  rw [List.getElem?_append_right (by omega)]
  congr 1
  omega

theorem recolorPixels_length (b1 b2 b3 : Nat) (l : List Nat) :
    (recolorPixels b1 b2 b3 l).length = l.length := by
  induction l using recolorPixels.induct b1 b2 b3 with
  | case1 r g b a rest ih =>
    simp only [recolorPixels, List.length_append]
    split_ifs <;> simp <;> omega
  | case2 rest h =>
    rcases rest with _ | ⟨x, _ | ⟨y, _ | ⟨z, _ | ⟨w, t⟩⟩⟩⟩
    · rfl
    · rfl
    · rfl
    · rfl
    · exact (h x y z w t rfl).elim

theorem recolorPixels_drop (b1 b2 b3 : Nat) (l : List Nat) :
    (recolorPixels b1 b2 b3 l).drop (4 * (l.length / 4)) = l.drop (4 * (l.length / 4)) := by
  induction l using recolorPixels.induct b1 b2 b3 with
  | case1 r g b a rest ih =>
    have hpix : (if a = 255 then [r, g, b, a]
        else if a = 0 then [b1, b2, b3, 255]
        else [((r * a + b1 * (255 - a)) / 255) % 256,
              ((g * a + b2 * (255 - a)) / 255) % 256,
              ((b * a + b3 * (255 - a)) / 255) % 256,
              255]).length = 4 := by split_ifs <;> rfl
    simp only [recolorPixels, List.length_cons]
    rw [show 4 * ((rest.length + 1 + 1 + 1 + 1) / 4) = 4 + 4 * (rest.length / 4) from by omega]
    rw [drop_four_append _ _ hpix, drop_four_cons]
    exact ih
  | case2 rest h =>
    rcases rest with _ | ⟨x, _ | ⟨y, _ | ⟨z, _ | ⟨w, t⟩⟩⟩⟩
    · rfl
    · rfl
    · rfl
    · rfl
    · exact (h x y z w t rfl).elim

theorem recolorPixels_alpha (b1 b2 b3 : Nat) (l : List Nat) :
    ∀ i, 4 * i + 3 < l.length → (recolorPixels b1 b2 b3 l).get? (4 * i + 3) = some 255 := by
  induction l using recolorPixels.induct b1 b2 b3 with
  | case1 r g b a rest ih =>
    intro i hi
    cases i with
    | zero =>
      simp only [recolorPixels]
      split_ifs with h1 h2
      · exact congrArg some h1
      · rfl
      · rfl
    | succ j =>
      have hpix : (if a = 255 then [r, g, b, a]
          else if a = 0 then [b1, b2, b3, 255]
          else [((r * a + b1 * (255 - a)) / 255) % 256,
                ((g * a + b2 * (255 - a)) / 255) % 256,
                ((b * a + b3 * (255 - a)) / 255) % 256,
                255]).length = 4 := by split_ifs <;> rfl
      simp only [recolorPixels]
      rw [show 4 * (j + 1) + 3 = 4 + (4 * j + 3) from by omega]
      rw [get?_add_four _ _ hpix]
      simp only [List.length_cons] at hi
      exact ih j (by omega)
  | case2 rest h =>
    intro i hi
    rcases rest with _ | ⟨x, _ | ⟨y, _ | ⟨z, _ | ⟨w, t⟩⟩⟩⟩
    · simp only [List.length_nil] at hi; omega
    · simp only [List.length_cons, List.length_nil] at hi; omega
    · simp only [List.length_cons, List.length_nil] at hi; omega
    · simp only [List.length_cons, List.length_nil] at hi; omega
    · exact (h x y z w t rfl).elim

/-- Claim C4: per-pixel behaviour of `replace_transparent_with_color`:
alpha 255 leaves the pixel unchanged, alpha 0 yields the background at
full opacity, and otherwise each channel is the truncating blend with
output alpha 255. -/
theorem C4_recolor_pixel_cases (r g b a hex : Nat)
    (hr : r < 256) (hg : g < 256) (hb : b < 256) (ha : a < 256) :
    replace_transparent_with_color [r, g, b, a] hex =
      if a = 255 then [r, g, b, a]
      else if a = 0 then
        [(hex >>> 16) &&& 0xFF, (hex >>> 8) &&& 0xFF, hex &&& 0xFF, 255]
      else
        [(r * a + ((hex >>> 16) &&& 0xFF) * (255 - a)) / 255,
         (g * a + ((hex >>> 8) &&& 0xFF) * (255 - a)) / 255,
         (b * a + (hex &&& 0xFF) * (255 - a)) / 255, 255] := by
  have hmod : ∀ c bg : Nat, c < 256 → bg ≤ 255 →
      ((c * a + bg * (255 - a)) / 255) % 256 = (c * a + bg * (255 - a)) / 255 := by
    intro c bg hc hbg
    apply Nat.mod_eq_of_lt
    have h1 : c * a ≤ 255 * a := Nat.mul_le_mul_right a (by omega)
    have h2 : bg * (255 - a) ≤ 255 * (255 - a) := Nat.mul_le_mul_right _ hbg
    have h3 : c * a + bg * (255 - a) ≤ 255 * 255 := by omega
    have h4 : (c * a + bg * (255 - a)) / 255 ≤ 255 * 255 / 255 :=
      Nat.div_le_div_right h3
    omega
  simp only [replace_transparent_with_color, recolorPixels, recolorPixels_nil,
    List.append_nil]
  split_ifs with h1 h2
  · rfl
  · rfl
  · rw [hmod r _ hr Nat.and_le_right, hmod g _ hg Nat.and_le_right,
        hmod b _ hb Nat.and_le_right]

theorem C4_witness :
    (10 : Nat) < 256 ∧
    replace_transparent_with_color [10, 10, 10, 128] 0xBFBFBF =
      if (128 : Nat) = 255 then [10, 10, 10, 128]
      else if (128 : Nat) = 0 then
        [(0xBFBFBF >>> 16) &&& 0xFF, (0xBFBFBF >>> 8) &&& 0xFF, 0xBFBFBF &&& 0xFF, 255]
      else
        [(10 * 128 + ((0xBFBFBF >>> 16) &&& 0xFF) * (255 - 128)) / 255,
         (10 * 128 + ((0xBFBFBF >>> 8) &&& 0xFF) * (255 - 128)) / 255,
         (10 * 128 + (0xBFBFBF &&& 0xFF) * (255 - 128)) / 255, 255] :=
  ⟨by decide,
   C4_recolor_pixel_cases 10 10 10 128 0xBFBFBF (by decide) (by decide) (by decide) (by decide)⟩

/-- Claim C10: `replace_transparent_with_color` preserves the buffer
length, leaves the bytes past the last complete 4-byte pixel
unchanged, and forces the alpha byte of every complete pixel to 255. -/
theorem C10_recolor_invariants (bytes : List Nat) (hex : Nat) :
    (replace_transparent_with_color bytes hex).length = bytes.length ∧
    (replace_transparent_with_color bytes hex).drop (4 * (bytes.length / 4)) =
      bytes.drop (4 * (bytes.length / 4)) ∧
    ∀ i, 4 * i + 3 < bytes.length →
      (replace_transparent_with_color bytes hex).get? (4 * i + 3) = some 255 :=
  ⟨recolorPixels_length _ _ _ _, recolorPixels_drop _ _ _ _,
   fun i hi => recolorPixels_alpha _ _ _ _ i hi⟩

theorem C10_witness :
    (replace_transparent_with_color [1, 2, 3, 0, 7, 7] 0xBFBFBF).get? 3 = some 255 :=
  (C10_recolor_invariants [1, 2, 3, 0, 7, 7] 0xBFBFBF).2.2 0 (by decide)

theorem toPairs_length : ∀ (l : List Int) (ps : List (Int × Int)),
    toPairs l = some ps → 2 * ps.length = l.length := by
  intro l
  induction l using toPairs.induct with
  | case1 =>
    intro ps h
    simp only [toPairs, Option.some.injEq] at h
    subst h
    rfl
  | case2 x y rest ih =>
    intro ps h
    simp only [toPairs] at h
    rcases hrest : toPairs rest with _ | ps'
    · rw [hrest] at h; simp at h
    · rw [hrest] at h
      simp only [Option.map_some', Option.some.injEq] at h
      subst h
      have := ih ps' hrest
      simp only [List.length_cons]
      omega
  | case3 rest h1 h2 =>
    intro ps h
    rcases rest with _ | ⟨x, _ | ⟨y, t⟩⟩
    · exact (h1 rfl).elim
    · exact Option.noConfusion h
    · exact (h2 x y t rfl).elim

theorem toTriples_length : ∀ (l : List Int) (ts : List (Int × Int × Int)),
    toTriples l = some ts → 3 * ts.length = l.length := by
  intro l
  induction l using toTriples.induct with
  | case1 =>
    intro ts h
    simp only [toTriples, Option.some.injEq] at h
    subst h
    rfl
  | case2 x y z rest ih =>
    intro ts h
    simp only [toTriples] at h
    rcases hrest : toTriples rest with _ | ts'
    · rw [hrest] at h; simp at h
    · rw [hrest] at h
      simp only [Option.map_some', Option.some.injEq] at h
      subst h
      have := ih ts' hrest
      simp only [List.length_cons]
      omega
  | case3 rest h1 h2 =>
    intro ts h
    rcases rest with _ | ⟨x, _ | ⟨y, _ | ⟨z, t⟩⟩⟩
    · exact (h1 rfl).elim
    · exact Option.noConfusion h
    · exact Option.noConfusion h
    · exact (h2 x y z t rfl).elim

/-- Claim C9: mesh conversion gives UV `(0,0)` to a vertex with no
texcoord, normal `(0,1,0)` (homogeneous `(0,1,0,1)`) to a vertex with
no normal, and narrows every triangle index to 16 bits. -/
theorem C9_process_mesh_fallbacks (m : TobjMesh) (t : Texture) (mq : MQMesh)
    (h : process_mesh m t = some mq) :
    mq.indices = m.indices.map (fun x => x % 65536) ∧
    (∀ i, i < mq.vertices.length → m.texcoords.length ≤ 2 * i →
      (mq.vertices.getD i vertexDefault).uv = (0, 0)) ∧
    (∀ i, i < mq.vertices.length → m.normals.length ≤ 3 * i →
      (mq.vertices.getD i vertexDefault).normal = (0, 1, 0, 1)) := by
  rcases hpos : toTriples m.positions with _ | vp
  · rw [process_mesh, hpos] at h; exact absurd h (by simp)
  rcases htex : toPairs m.texcoords with _ | tc
  · rw [process_mesh, hpos, htex] at h; exact absurd h (by simp)
  rcases hnor : toTriples m.normals with _ | ns
  · rw [process_mesh, hpos, htex, hnor] at h; exact absurd h (by simp)
  rw [process_mesh, hpos, htex, hnor] at h
  simp only [Option.some.injEq] at h
  subst h
  refine ⟨rfl, ?_, ?_⟩
  · intro i hi hlen
    have hlen2 : tc.length ≤ i := by
      have := toPairs_length m.texcoords tc htex
      omega
    simp only [List.length_map, List.length_range] at hi
    rw [List.getD_eq_getElem _ _ (by simpa using hi)]
    simp only [List.getElem_map, List.getElem_range]
    exact List.getD_eq_default _ _ hlen2
  · intro i hi hlen
    have hlen3 : ns.length ≤ i := by
      have := toTriples_length m.normals ns hnor
      omega
    simp only [List.length_map, List.length_range] at hi
    rw [List.getD_eq_getElem _ _ (by simpa using hi)]
    simp only [List.getElem_map, List.getElem_range]
    rw [List.get?_eq_none.2 hlen3]

theorem C9_witness :
    mqC9.indices = meshC9.indices.map (fun x => x % 65536) ∧
    (mqC9.vertices.getD 1 vertexDefault).uv = (0, 0) ∧
    (mqC9.vertices.getD 1 vertexDefault).normal = (0, 1, 0, 1) := by
  have h := C9_process_mesh_fallbacks meshC9 Texture.checker mqC9 (by decide)
  exact ⟨h.1, h.2.1 1 (by decide) (by decide), h.2.2 1 (by decide) (by decide)⟩

theorem processItem_events (env : Env) (c : HexBodyColors) (sm : StaticMeshes)
    (st : SceneState) (a : ItemAsset) (st2 : SceneState)
    (h : processItem env c sm st a = some st2) :
    ∃ extra, st2.events = st.events ++ extra ∧ ∀ e ∈ extra, e.kind = DrawKind.hat := by
  simp only [processItem] at h
  split at h
  · cases h
    exact ⟨[], (List.append_nil _).symm, by simp⟩
  · split at h
    all_goals repeat split at h
    all_goals try exact Option.noConfusion h
    all_goals cases h
    all_goals try exact ⟨[], (List.append_nil _).symm, by simp⟩
    all_goals exact ⟨[DrawEvent.hat _], rfl, by simp [DrawEvent.kind]⟩

theorem foldItems_events (env : Env) (c : HexBodyColors) (sm : StaticMeshes) :
    ∀ (acc : List ItemAsset) (st st2 : SceneState),
      foldItems env c sm st acc = some st2 →
      ∃ extra, st2.events = st.events ++ extra ∧ ∀ e ∈ extra, e.kind = DrawKind.hat := by
  intro acc
  induction acc with
  | nil =>
    intro st st2 h
    simp only [foldItems, Option.some.injEq] at h
    subst h
    exact ⟨[], (List.append_nil _).symm, by simp⟩
  | cons a rest ih =>
    intro st st2 h
    simp only [foldItems] at h
    rcases hstep : processItem env c sm st a with _ | st1
    · rw [hstep] at h; exact Option.noConfusion h
    · rw [hstep] at h
      obtain ⟨e1, he1, hk1⟩ := processItem_events env c sm st a st1 hstep
      obtain ⟨e2, he2, hk2⟩ := ih st1 st2 h
      refine ⟨e1 ++ e2, ?_, ?_⟩
      · rw [he2, he1, List.append_assoc]
      · intro e he
        rcases List.mem_append.1 he with h1 | h2
        · exact hk1 e h1
        · exact hk2 e h2

theorem process_mesh_texture (m : TobjMesh) (t : Texture) (mq : MQMesh)
    (h : process_mesh m t = some mq) : mq.texture = some t := by
  rcases hpos : toTriples m.positions with _ | vp
  · rw [process_mesh, hpos] at h; exact Option.noConfusion h
  rcases htex : toPairs m.texcoords with _ | tc
  · rw [process_mesh, hpos, htex] at h; exact Option.noConfusion h
  rcases hnor : toTriples m.normals with _ | ns
  · rw [process_mesh, hpos, htex, hnor] at h; exact Option.noConfusion h
  rw [process_mesh, hpos, htex, hnor] at h
  simp only [Option.some.injEq] at h
  subst h
  rfl

theorem toPairs_total : ∀ l : List Int, 2 ∣ l.length → ∃ ps, toPairs l = some ps := by
  intro l
  induction l using toPairs.induct with
  | case1 => exact fun _ => ⟨[], rfl⟩
  | case2 x y rest ih =>
    intro hdvd
    obtain ⟨ps, hps⟩ := ih (by simp only [List.length_cons] at hdvd ⊢; omega)
    exact ⟨(x, y) :: ps, by simp [toPairs, hps]⟩
  | case3 rest h1 h2 =>
    intro hdvd
    rcases rest with _ | ⟨x, _ | ⟨y, t⟩⟩
    · exact (h1 rfl).elim
    · simp only [List.length_cons, List.length_nil] at hdvd; omega
    · exact (h2 x y t rfl).elim

theorem toTriples_total : ∀ l : List Int, 3 ∣ l.length → ∃ ts, toTriples l = some ts := by
  intro l
  induction l using toTriples.induct with
  | case1 => exact fun _ => ⟨[], rfl⟩
  | case2 x y z rest ih =>
    intro hdvd
    obtain ⟨ts, hts⟩ := ih (by simp only [List.length_cons] at hdvd ⊢; omega)
    exact ⟨(x, y, z) :: ts, by simp [toTriples, hts]⟩
  | case3 rest h1 h2 =>
    intro hdvd
    rcases rest with _ | ⟨x, _ | ⟨y, _ | ⟨z, t⟩⟩⟩
    · exact (h1 rfl).elim
    · simp only [List.length_cons, List.length_nil] at hdvd; omega
    · simp only [List.length_cons, List.length_nil] at hdvd; omega
    · exact (h2 x y z t rfl).elim

theorem process_mesh_total (m : TobjMesh) (t : Texture) (hwf : MeshWF m) :
    ∃ mq, process_mesh m t = some mq := by
  obtain ⟨vp, hvp⟩ := toTriples_total m.positions hwf.1
  obtain ⟨tc, htc⟩ := toPairs_total m.texcoords hwf.2.1
  obtain ⟨ns, hns⟩ := toTriples_total m.normals hwf.2.2
  rw [process_mesh, hvp, htc, hns]
  exact ⟨_, rfl⟩

theorem drawPart_shape (p : BodyPart) (om : Option TobjMesh) (t : Texture)
    (es : List DrawEvent) (h : drawPart p om t = some es) :
    es = [] ∨ ∃ mq, es = [DrawEvent.body p mq] ∧ mq.texture = some t := by
  rcases om with _ | m
  · simp only [drawPart, Option.some.injEq] at h
    exact Or.inl h.symm
  · simp only [drawPart] at h
    rcases hpm : process_mesh m t with _ | mq
    · rw [hpm] at h; exact Option.noConfusion h
    · rw [hpm] at h
      simp only [Option.some.injEq] at h
      exact Or.inr ⟨mq, h.symm, process_mesh_texture m t mq hpm⟩

theorem drawPart_total (p : BodyPart) (om : Option TobjMesh) (t : Texture)
    (hwf : ∀ m, om = some m → MeshWF m) : ∃ es, drawPart p om t = some es := by
  rcases om with _ | m
  · exact ⟨[], rfl⟩
  · obtain ⟨mq, hmq⟩ := process_mesh_total m t (hwf m rfl)
    exact ⟨[DrawEvent.body p mq], by simp [drawPart, hmq]⟩

theorem drawParts_spec :
    ∀ (l : List (BodyPart × Option TobjMesh × Texture)) (es : List DrawEvent),
      drawParts l = some es →
      (es.map DrawEvent.kind).Sublist (l.map (fun x => DrawKind.body x.1)) ∧
      ∀ e ∈ es, ∃ x, x ∈ l ∧ ∃ mq, e = DrawEvent.body x.1 mq ∧ mq.texture = some x.2.2 := by
  intro l
  induction l with
  | nil =>
    intro es h
    simp only [drawParts, Option.some.injEq] at h
    subst h
    exact ⟨by simp, by simp⟩
  | cons x rest ih =>
    intro es h
    obtain ⟨p, om, t⟩ := x
    simp only [drawParts] at h
    rcases h1 : drawPart p om t with _ | es1 <;>
      rcases h2 : drawParts rest with _ | es2 <;>
      rw [h1, h2] at h
    · exact Option.noConfusion h
    · exact Option.noConfusion h
    · exact Option.noConfusion h
    · simp only [Option.some.injEq] at h
      subst h
      obtain ⟨hsub, hmem⟩ := ih es2 h2
      constructor
      · rw [List.map_append, List.map_cons, ← List.singleton_append]
        refine List.Sublist.append ?_ hsub
        rcases drawPart_shape p om t es1 h1 with h | ⟨mq, hmq, -⟩
        · subst h; exact List.nil_sublist _
        · subst hmq; exact List.Sublist.refl _
      · intro e he
        rcases List.mem_append.1 he with hin | hin
        · rcases drawPart_shape p om t es1 h1 with hnil | ⟨mq, hmq, htex⟩
          · subst hnil; simp at hin
          · subst hmq
            simp only [List.mem_singleton] at hin
            subst hin
            exact ⟨(p, om, t), List.mem_cons_self _ _, mq, rfl, htex⟩
        · obtain ⟨y, hy, mq, hmq, htex⟩ := hmem e hin
          exact ⟨y, List.mem_cons_of_mem _ hy, mq, hmq, htex⟩

theorem render_scene_trace (env : Env) (acc : List ItemAsset) (colors : HexBodyColors)
    (sm : StaticMeshes) (tr : List DrawEvent) (s : String)
    (h : render_scene env acc colors sm = some (tr, s)) :
    ∃ st bodies,
      foldItems env colors sm (initState env colors sm) acc = some st ∧
      bodyEvents sm st = some bodies ∧
      tr = st.events ++ bodies ++ st.tshirt_meshes.map DrawEvent.overlay ∧
      s = encodeResult env := by
  rcases h1 : foldItems env colors sm (initState env colors sm) acc with _ | st
  · simp only [render_scene, h1] at h
    exact Option.noConfusion h
  simp only [render_scene, h1] at h
  rcases h2 : bodyEvents sm st with _ | bodies
  · simp only [h2] at h
    exact Option.noConfusion h
  simp only [h2, Option.some.injEq, Prod.mk.injEq] at h
  exact ⟨st, bodies, rfl, h2, h.1.symm, h.2.symm⟩

theorem split_index_lt {α : Type} (p q : α → Prop) (pre post : List α)
    (hpre : ∀ e ∈ pre, ¬ q e) (hpost : ∀ e ∈ post, ¬ p e)
    (i j : Nat) (hi : i < (pre ++ post).length) (hj : j < (pre ++ post).length)
    (hpi : p ((pre ++ post).get ⟨i, hi⟩)) (hqj : q ((pre ++ post).get ⟨j, hj⟩)) :
    i < j := by
  have hipre : i < pre.length := by
    by_contra hc
    push_neg at hc
    have hmem : (pre ++ post).get ⟨i, hi⟩ ∈ post := by
      rw [List.get_eq_getElem, List.getElem_append_right hc]
      exact List.getElem_mem _
    exact hpost _ hmem hpi
  have hjpre : pre.length ≤ j := by
    by_contra hc
    push_neg at hc
    have hmem : (pre ++ post).get ⟨j, hj⟩ ∈ pre := by
      rw [List.get_eq_getElem, List.getElem_append_left hc]
      exact List.getElem_mem _
    exact hpre _ hmem hqj
  omega

theorem bodyEvents_spec (sm : StaticMeshes) (st : SceneState) (bodies : List DrawEvent)
    (h : bodyEvents sm st = some bodies) :
    (bodies.map DrawEvent.kind).Sublist bodyKindOrder ∧
    ∀ e ∈ bodies, ∃ p mq, e = DrawEvent.body p mq := by
  simp only [bodyEvents] at h
  obtain ⟨hsub, hmem⟩ := drawParts_spec _ bodies h
  constructor
  · simpa using hsub
  · intro e he
    obtain ⟨x, -, mq, hmq, -⟩ := hmem e he
    exact ⟨x.1, mq, hmq⟩

/-- Claim C3 (amended): hats drawn during item processing come first,
then the base parts in the fixed order torso, right arm, left arm,
head, left leg, right leg (those whose mesh is present), then all
overlay meshes. -/
theorem C3_draw_order (env : Env) (acc : List ItemAsset) (colors : HexBodyColors)
    (sm : StaticMeshes) (tr : List DrawEvent) (s : String)
    (h : render_scene env acc colors sm = some (tr, s)) :
    ∃ hats bodies overlays,
      tr = hats ++ bodies ++ overlays ∧
      (∀ e ∈ hats, e.kind = DrawKind.hat) ∧
      (bodies.map DrawEvent.kind).Sublist bodyKindOrder ∧
      (∀ e ∈ overlays, e.kind = DrawKind.overlay) := by
  obtain ⟨st, bodies, hfold, hbody, htr, -⟩ := render_scene_trace env acc colors sm tr s h
  obtain ⟨extra, hev, hhat⟩ :=
    foldItems_events env colors sm acc (initState env colors sm) st hfold
  obtain ⟨hsub, -⟩ := bodyEvents_spec sm st bodies hbody
  refine ⟨st.events, bodies, st.tshirt_meshes.map DrawEvent.overlay, htr, ?_, hsub, ?_⟩
  · intro e he
    rw [hev] at he
    exact hhat e (by simpa [initState] using he)
  · intro e he
    rcases List.mem_map.1 he with ⟨m, -, rfl⟩
    rfl

theorem split_index_lt_of_eq {α : Type} (p q : α → Prop) (tr pre post : List α)
    (htr : tr = pre ++ post)
    (hpre : ∀ e ∈ pre, ¬ q e) (hpost : ∀ e ∈ post, ¬ p e)
    (i j : Nat) (hi : i < tr.length) (hj : j < tr.length)
    (hpi : p (tr.get ⟨i, hi⟩)) (hqj : q (tr.get ⟨j, hj⟩)) : i < j := by
  subst htr
  exact split_index_lt p q pre post hpre hpost i j hi hj hpi hqj

/-- Claim C8: for every accessory list (hence every permutation of it)
an overlay draw always comes strictly after every body-part draw in
the trace. -/
theorem C8_overlay_after_body (env : Env) (acc : List ItemAsset) (colors : HexBodyColors)
    (sm : StaticMeshes) (tr : List DrawEvent) (s : String)
    (h : render_scene env acc colors sm = some (tr, s))
    (i j : Nat) (hi : i < tr.length) (hj : j < tr.length)
    (hbody : ∃ p, (tr.get ⟨i, hi⟩).kind = DrawKind.body p)
    (hover : (tr.get ⟨j, hj⟩).kind = DrawKind.overlay) :
    i < j := by
  obtain ⟨st, bodies, hfold, hbodyev, htr, -⟩ := render_scene_trace env acc colors sm tr s h
  obtain ⟨extra, hev, hhat⟩ :=
    foldItems_events env colors sm acc (initState env colors sm) st hfold
  obtain ⟨-, hmem⟩ := bodyEvents_spec sm st bodies hbodyev
  refine split_index_lt_of_eq (fun e => ∃ p, e.kind = DrawKind.body p)
    (fun e => e.kind = DrawKind.overlay) tr (st.events ++ bodies)
    (st.tshirt_meshes.map DrawEvent.overlay)
    htr ?_ ?_ i j hi hj hbody hover
  · intro e he
    rcases List.mem_append.1 he with h1 | h2
    · have hk := hhat e (by rw [hev] at h1; simpa [initState] using h1)
      intro hq
      rw [hk] at hq
      exact DrawKind.noConfusion hq
    · obtain ⟨pp, mq, rfl⟩ := hmem e h2
      intro hq
      exact DrawKind.noConfusion hq
  · intro e he
    rcases List.mem_map.1 he with ⟨m, -, rfl⟩
    rintro ⟨pp, hk⟩
    exact DrawKind.noConfusion hk

theorem C3_counterexample :
    render_scene envC3 [hatItem] greyColors smAll = some (traceC3, "") ∧
    traceC3.map DrawEvent.kind = DrawKind.hat :: bodyKindOrder ∧
    DrawKind.hat :: bodyKindOrder ≠ bodyKindOrder ++ [DrawKind.hat] :=
  ⟨by decide, by decide, by decide⟩

theorem C3_witness :
    ∃ hats bodies overlays,
      traceC3 = hats ++ bodies ++ overlays ∧
      (∀ e ∈ hats, e.kind = DrawKind.hat) ∧
      (bodies.map DrawEvent.kind).Sublist bodyKindOrder ∧
      (∀ e ∈ overlays, e.kind = DrawKind.overlay) :=
  C3_draw_order envC3 [hatItem] greyColors smAll traceC3 "" (by decide)

theorem C8_witness : (0 : Nat) < 6 :=
  C8_overlay_after_body envT [tshirtItem] greyColors smAll traceC8 "" (by decide)
    0 6 (by decide) (by decide) ⟨BodyPart.trso, by decide⟩ (by decide)

theorem initState_agree (env : Env) (c1 c2 : HexBodyColors) (sm : StaticMeshes)
    (hhead : c1.head = c2.head) (hrarm : c1.rarm = c2.rarm) (hlarm : c1.larm = c2.larm)
    (hlleg : c1.lleg = c2.lleg) (hrleg : c1.rleg = c2.rleg) :
    AgreeExceptTrso (initState env c1 sm) (initState env c2 sm) := by
  refine ⟨?_, rfl, ?_, ?_, ?_, ?_, rfl, rfl⟩ <;>
    simp only [initState, hhead, hrarm, hlarm, hlleg, hrleg]

theorem processItem_agree (env : Env) (c1 c2 : HexBodyColors) (sm : StaticMeshes)
    (a : ItemAsset) (st1 st2 : SceneState)
    (hhead : c1.head = c2.head) (hrarm : c1.rarm = c2.rarm) (hlarm : c1.larm = c2.larm)
    (hlleg : c1.lleg = c2.lleg) (hrleg : c1.rleg = c2.rleg)
    (hst : AgreeExceptTrso st1 st2) :
    OptionRel AgreeExceptTrso (processItem env c1 sm st1 a) (processItem env c2 sm st2 a) := by
  obtain ⟨h1, h2, h3, h4, h5, h6, h7, h8⟩ := hst
  simp only [processItem]
  split_ifs
  · exact ⟨h1, h2, h3, h4, h5, h6, h7, h8⟩
  · split
    · -- hat
      rcases load_resources_and_mesh env (a.location.getD "") (a.texture_path.getD "") with
        _ | (_ | m)
      · exact trivial
      · exact ⟨h1, h2, h3, h4, h5, h6, h7, h8⟩
      · exact ⟨h1, h2, h3, h4, h5, h6, h7, by simp [h8]⟩
    · -- head swap
      rcases load_static_mesh env ("/srv/http/" ++ a.location.getD "") with _ | nm
      · exact ⟨h1, h2, h3, h4, h5, h6, h7, h8⟩
      · exact ⟨h1, rfl, h3, h4, h5, h6, h7, h8⟩
    · -- face texture
      rcases env.processImg ("/srv/http/" ++ a.location.getD "") with _ | ⟨w, hh, bytes⟩
      · exact ⟨h1, h2, h3, h4, h5, h6, h7, h8⟩
      · exact ⟨by rw [hhead], h2, h3, h4, h5, h6, h7, h8⟩
    · -- pants
      rcases env.processImg ("/srv/http/" ++ a.location.getD "") with _ | ⟨w, hh, bytes⟩
      · exact ⟨h1, h2, h3, h4, h5, h6, h7, h8⟩
      · exact ⟨h1, h2, h3, h4, by rw [hrleg], by rw [hlleg], h7, h8⟩
    · -- shirt
      rcases env.processImg ("/srv/http/" ++ a.location.getD "") with _ | ⟨w, hh, bytes⟩
      · exact ⟨h1, h2, h3, h4, h5, h6, h7, h8⟩
      · exact ⟨h1, h2, by rw [hrarm], by rw [hlarm], h5, h6, h7, h8⟩
    · -- t-shirt overlay
      rcases himg : env.processImg ("/srv/http/" ++ a.location.getD "") with _ | ⟨w, hh, bytes⟩ <;>
        simp only [himg]
      · exact ⟨h1, h2, h3, h4, h5, h6, h7, h8⟩
      · rcases hts : sm.tshirt with _ | tm <;> simp only [hts]
        · exact ⟨h1, h2, h3, h4, h5, h6, h7, h8⟩
        · rcases hpm : process_mesh tm (Texture.fromRgba8 (w % 65536) (hh % 65536) bytes) with
            _ | fm <;> simp only [hpm]
          · exact trivial
          · exact ⟨h1, h2, h3, h4, h5, h6, by simp [h7], h8⟩
    · -- unknown
      exact ⟨h1, h2, h3, h4, h5, h6, h7, h8⟩

theorem foldItems_agree (env : Env) (c1 c2 : HexBodyColors) (sm : StaticMeshes)
    (hhead : c1.head = c2.head) (hrarm : c1.rarm = c2.rarm) (hlarm : c1.larm = c2.larm)
    (hlleg : c1.lleg = c2.lleg) (hrleg : c1.rleg = c2.rleg) :
    ∀ (acc : List ItemAsset) (st1 st2 : SceneState), AgreeExceptTrso st1 st2 →
      OptionRel AgreeExceptTrso (foldItems env c1 sm st1 acc) (foldItems env c2 sm st2 acc) := by
  intro acc
  induction acc with
  | nil => intro st1 st2 hst; exact hst
  | cons a rest ih =>
    intro st1 st2 hst
    have hrel := processItem_agree env c1 c2 sm a st1 st2 hhead hrarm hlarm hlleg hrleg hst
    simp only [foldItems]
    rcases hp1 : processItem env c1 sm st1 a with _ | st1b <;>
      rcases hp2 : processItem env c2 sm st2 a with _ | st2b <;>
      rw [hp1, hp2] at hrel
    · exact trivial
    · exact hrel.elim
    · exact hrel.elim
    · exact ih st1b st2b hrel

/-- Claim C5: changing only the torso's resolved colour never changes
the right-arm or left-arm textures produced by the item loop, and a
shirt item sets the torso, right-arm and left-arm textures to three
independent composites of the one source image against the respective
resolved colours. -/
theorem C5_arm_textures_independent (env : Env) (acc : List ItemAsset)
    (sm : StaticMeshes) (c1 c2 : HexBodyColors)
    (hhead : c1.head = c2.head) (hrarm : c1.rarm = c2.rarm) (hlarm : c1.larm = c2.larm)
    (hlleg : c1.lleg = c2.lleg) (hrleg : c1.rleg = c2.rleg) :
    Option.map (fun st => (st.rarm_texture, st.larm_texture))
        (foldItems env c1 sm (initState env c1 sm) acc)
      = Option.map (fun st => (st.rarm_texture, st.larm_texture))
        (foldItems env c2 sm (initState env c2 sm) acc) ∧
    ∀ (st : SceneState) (b : ItemAsset) (loc : String) (w h : Nat) (bytes : List Nat),
      b.item_type = 5 → b.location = some loc → loc ≠ "" →
      env.processImg ("/srv/http/" ++ loc) = some (w, h, bytes) →
      processItem env c1 sm st b =
        some { st with
          trso_texture := Texture.fromRgba8 (w % 65536) (h % 65536)
            (replace_transparent_with_color bytes c1.trso)
          rarm_texture := Texture.fromRgba8 (w % 65536) (h % 65536)
            (replace_transparent_with_color bytes c1.rarm)
          larm_texture := Texture.fromRgba8 (w % 65536) (h % 65536)
            (replace_transparent_with_color bytes c1.larm) } := by
  constructor
  · have hrel := foldItems_agree env c1 c2 sm hhead hrarm hlarm hlleg hrleg acc
      (initState env c1 sm) (initState env c2 sm)
      (initState_agree env c1 c2 sm hhead hrarm hlarm hlleg hrleg)
    rcases hf1 : foldItems env c1 sm (initState env c1 sm) acc with _ | st1 <;>
      rcases hf2 : foldItems env c2 sm (initState env c2 sm) acc with _ | st2 <;>
      rw [hf1, hf2] at hrel
    all_goals first
      | rfl
      | exact False.elim hrel
      | (obtain ⟨-, -, hra, hla, -, -, -, -⟩ := hrel
         simp only [Option.map_some', hra, hla])
  · intro st b loc w h bytes hty hloc hne himg
    simp only [processItem, hloc, Option.getD_some, if_neg hne, hty, himg]

theorem C5_witness :
    Option.map (fun st => (st.rarm_texture, st.larm_texture))
        (foldItems envS greyColors smAll (initState envS greyColors smAll) [shirtItem])
      = Option.map (fun st => (st.rarm_texture, st.larm_texture))
        (foldItems envS altColors smAll (initState envS altColors smAll) [shirtItem]) :=
  (C5_arm_textures_independent envS [shirtItem] smAll greyColors altColors
    rfl rfl rfl rfl rfl).1

theorem base64EncodeChars_ne_nil : ∀ l : List Nat, l ≠ [] → base64EncodeChars l ≠ [] := by
  intro l hl
  match l with
  | [] => exact absurd rfl hl
  | [b1] => simp [base64EncodeChars]
  | [b1, b2] => simp [base64EncodeChars]
  | b1 :: b2 :: b3 :: rest => simp [base64EncodeChars]

theorem base64Encode_ne_empty (l : List Nat) (hl : l ≠ []) : base64Encode l ≠ "" := by
  unfold base64Encode
  intro hcontra
  apply base64EncodeChars_ne_nil l hl
  have hdata := congrArg String.data hcontra
  simpa using hdata

theorem pngEncode_some (w h : Nat) (data png : List Nat)
    (hp : pngEncode w h data = some png) :
    png = pngSignature ++ (u32be w ++ (u32be h ++ ([8, 6] ++ data))) ∧
    w ≠ 0 ∧ h ≠ 0 ∧ data.length = 4 * w * h := by
  simp only [pngEncode] at hp
  by_cases h1 : w = 0 ∨ h = 0
  · rw [if_pos h1] at hp
    exact Option.noConfusion hp
  rw [if_neg h1] at hp
  by_cases h2 : data.length ≠ 4 * w * h
  · rw [if_pos h2] at hp
    exact Option.noConfusion hp
  rw [if_neg h2] at hp
  push_neg at h1 h2
  simp only [Option.some.injEq] at hp
  refine ⟨?_, h1.1, h1.2, h2⟩
  rw [← hp]
  simp [List.append_assoc]

theorem pngEncode_take8 (w h : Nat) (data png : List Nat)
    (hp : pngEncode w h data = some png) : png.take 8 = pngSignature := by
  rw [(pngEncode_some w h data png hp).1,
    show (8 : Nat) = pngSignature.length from rfl, List.take_left]

theorem pngEncode_ne_nil (w h : Nat) (data png : List Nat)
    (hp : pngEncode w h data = some png) : png ≠ [] := by
  rw [(pngEncode_some w h data png hp).1]
  simp [pngSignature]

/-- Claim C7: every returned reply is the base64 text of a complete
PNG stream (signature intact, RGBA 8-bit header) and is non-empty, or
is exactly the empty string; the empty string happens precisely when
framebuffer-to-image conversion or PNG encoding fails. -/
theorem C7_reply_shape (env : Env) (acc : List ItemAsset) (colors : HexBodyColors)
    (sm : StaticMeshes) (tr : List DrawEvent) (s : String)
    (h : render_scene env acc colors sm = some (tr, s)) :
    (∃ png, pngEncode env.screen.1 env.screen.2.1
        (flipVertical env.screen.1 env.screen.2.1 env.screen.2.2) = some png ∧
      s = base64Encode png ∧ s ≠ "" ∧ png.take 8 = pngSignature)
    ∨ (s = "" ∧ (env.screen.2.2.length < 4 * env.screen.1 * env.screen.2.1 ∨
        pngEncode env.screen.1 env.screen.2.1
          (flipVertical env.screen.1 env.screen.2.1 env.screen.2.2) = none)) := by
  obtain ⟨st, bodies, -, -, -, hs⟩ := render_scene_trace env acc colors sm tr s h
  subst hs
  simp only [encodeResult]
  by_cases hle : 4 * env.screen.1 * env.screen.2.1 ≤ env.screen.2.2.length
  · rw [if_pos hle]
    rcases hpe : pngEncode env.screen.1 env.screen.2.1
        (flipVertical env.screen.1 env.screen.2.1 env.screen.2.2) with _ | png
    · exact Or.inr ⟨rfl, Or.inr rfl⟩
    · exact Or.inl ⟨png, rfl, rfl,
        base64Encode_ne_empty png (pngEncode_ne_nil _ _ _ _ hpe),
        pngEncode_take8 _ _ _ _ hpe⟩
  · rw [if_neg hle]
    exact Or.inr ⟨rfl, Or.inl (by omega)⟩

theorem C7_witness :
    (∃ png, pngEncode 0 0 (flipVertical 0 0 []) = some png ∧
      "" = base64Encode png ∧ ("" : String) ≠ "" ∧ png.take 8 = pngSignature)
    ∨ (("" : String) = "" ∧ ((([] : List Nat)).length < 4 * 0 * 0 ∨
        pngEncode 0 0 (flipVertical 0 0 []) = none)) :=
  C7_reply_shape envNone [] greyColors smNone [] "" (by decide)

theorem flipVertical_length (w h : Nat) (bytes : List Nat)
    (hlen : 4 * w * h ≤ bytes.length) :
    (flipVertical w h bytes).length = 4 * w * h := by
  unfold flipVertical
  rw [List.length_flatten, List.map_map]
  have hmap : ((List.range h).reverse).map
        (List.length ∘ fun r => (bytes.drop (4 * w * r)).take (4 * w))
      = List.replicate h (4 * w) := by
    apply List.eq_replicate_iff.2
    constructor
    · simp
    · intro b hb
      rcases List.mem_map.1 hb with ⟨r, hr, rfl⟩
      have hrh : r < h := List.mem_range.1 (List.mem_reverse.1 hr)
      simp only [Function.comp_apply, List.length_take, List.length_drop]
      have hmul : 4 * w * (r + 1) ≤ 4 * w * h := Nat.mul_le_mul_left _ hrh
      rw [Nat.mul_succ] at hmul
      omega
  rw [hmap, List.sum_replicate, smul_eq_mul]
  ring

theorem encodeResult_ne_empty (env : Env)
    (hw : env.screen.1 ≠ 0) (hh : env.screen.2.1 ≠ 0)
    (hlen : env.screen.2.2.length = 4 * env.screen.1 * env.screen.2.1) :
    encodeResult env ≠ "" := by
  simp only [encodeResult]
  rw [if_pos (le_of_eq hlen.symm)]
  rcases hpe : pngEncode env.screen.1 env.screen.2.1
      (flipVertical env.screen.1 env.screen.2.1 env.screen.2.2) with _ | png
  · exfalso
    simp only [pngEncode] at hpe
    rw [if_neg (by push_neg; exact ⟨hw, hh⟩)] at hpe
    rw [if_neg (by
      rw [flipVertical_length _ _ _ (le_of_eq hlen.symm)]
      exact fun hne => hne rfl)] at hpe
    exact Option.noConfusion hpe
  · exact base64Encode_ne_empty png (pngEncode_ne_nil _ _ _ _ hpe)

theorem drawParts_total :
    ∀ l : List (BodyPart × Option TobjMesh × Texture),
      (∀ x ∈ l, ∀ m, x.2.1 = some m → MeshWF m) → ∃ es, drawParts l = some es := by
  intro l
  induction l with
  | nil => exact fun _ => ⟨[], rfl⟩
  | cons x rest ih =>
    intro hwf
    obtain ⟨p, om, t⟩ := x
    obtain ⟨es1, hes1⟩ :=
      drawPart_total p om t (fun m hm => hwf _ (List.mem_cons_self _ _) m hm)
    obtain ⟨es2, hes2⟩ := ih (fun y hy m hm => hwf y (List.mem_cons_of_mem _ hy) m hm)
    exact ⟨es1 ++ es2, by simp [drawParts, hes1, hes2]⟩

/-- Claim C6: an item whose asset loads fail — undecodable or missing
image, and a missing obj file or an obj file with an empty mesh
list — is skipped without touching the loop state, and the end-to-end
kind-2 scenario with one hat item whose asset paths do not exist still
replies with a non-empty string, no hat draw, and the neutral grey
`0xBFBFBF` palette on every non-head body part. -/
theorem C6_asset_failure_recovery :
    (∀ (env : Env) (c : HexBodyColors) (sm : StaticMeshes) (st : SceneState)
        (b : ItemAsset) (loc : String), b.location = some loc →
        env.processImg ("/srv/http/" ++ loc) = none →
        (env.loadObj ("/srv/http/" ++ loc) = none ∨
          env.loadObj ("/srv/http/" ++ loc) = some []) →
        processItem env c sm st b = some st) ∧
    (∀ (env : Env) (sm : StaticMeshes) (a : ItemAsset) (loc : String),
        a.item_type = 9 → a.location = some loc → loc ≠ "" →
        env.loadObj ("/srv/http/" ++ loc) = none →
        StaticMeshesWF sm →
        env.screen.1 ≠ 0 → env.screen.2.1 ≠ 0 →
        env.screen.2.2.length = 4 * env.screen.1 * env.screen.2.1 →
        ∃ tr s, dispatch env sm
            { accessories := [a], bodycolors := none, job_type := 2 } = some (tr, s) ∧
          s ≠ "" ∧
          (∀ m, DrawEvent.hat m ∉ tr) ∧
          (∀ p mq, DrawEvent.body p mq ∈ tr → p ≠ BodyPart.head →
            mq.texture = some (Texture.fromRgba8 1 1 (from_hex 0xBFBFBF)))) := by
  constructor
  · intro env c sm st b loc hloc himg hobj
    simp only [processItem, hloc, Option.getD_some]
    by_cases hne : loc = ""
    · rw [if_pos hne]
    · rw [if_neg hne]
      split
      · rcases hobj with hobj | hobj <;> simp [load_resources_and_mesh, hobj]
      · rcases hobj with hobj | hobj <;> simp [load_static_mesh, hobj]
      · simp [himg]
      · simp [himg]
      · simp [himg]
      · simp [himg]
      · rfl
  · intro env sm a loc hty hloc hne hobj hwf hw hhh hlen
    have hskip : processItem env greyColors sm (initState env greyColors sm) a
        = some (initState env greyColors sm) := by
      simp only [processItem, hloc, Option.getD_some, if_neg hne, hty]
      simp [load_resources_and_mesh, hobj]
    obtain ⟨bodies, hbodies⟩ := drawParts_total
      [(BodyPart.trso, sm.trso, (initState env greyColors sm).trso_texture),
       (BodyPart.rarm, sm.rarm, (initState env greyColors sm).rarm_texture),
       (BodyPart.larm, sm.larm, (initState env greyColors sm).larm_texture),
       (BodyPart.head, (initState env greyColors sm).head_mesh_data,
        (initState env greyColors sm).face_texture),
       (BodyPart.lleg, sm.lleg, (initState env greyColors sm).lleg_texture),
       (BodyPart.rleg, sm.rleg, (initState env greyColors sm).rleg_texture)]
      (by
        intro x hx m hm
        simp only [List.mem_cons, List.not_mem_nil, or_false] at hx
        obtain ⟨hwf1, hwf2, hwf3, hwf4, hwf5, hwf6, -⟩ := hwf
        rcases hx with rfl | rfl | rfl | rfl | rfl | rfl
        · exact hwf6 m hm
        · exact hwf2 m hm
        · exact hwf3 m hm
        · exact hwf1 m (by simpa [initState] using hm)
        · exact hwf5 m hm
        · exact hwf4 m hm)
    have hbody2 : bodyEvents sm (initState env greyColors sm) = some bodies := by
      simpa only [bodyEvents] using hbodies
    have hrender : render_scene env [a] greyColors sm = some (bodies, encodeResult env) := by
      simp only [render_scene, foldItems, hskip, hbody2]
      simp [initState]
    obtain ⟨-, hmem⟩ := bodyEvents_spec sm (initState env greyColors sm) bodies hbody2
    simp only [bodyEvents] at hbody2
    obtain ⟨-, hmemx⟩ := drawParts_spec _ bodies hbody2
    refine ⟨bodies, encodeResult env, ?_, encodeResult_ne_empty env hw hhh hlen, ?_, ?_⟩
    · simpa only [dispatch] using hrender
    · intro m hmm
      obtain ⟨p, mq, heq⟩ := hmem _ hmm
      exact DrawEvent.noConfusion heq
    · intro p mq hmm hphead
      obtain ⟨x, hx, mq2, heq, htex⟩ := hmemx _ hmm
      simp only [List.mem_cons, List.not_mem_nil, or_false] at hx
      rcases hx with rfl | rfl | rfl | rfl | rfl | rfl <;>
        rcases heq with ⟨rfl, rfl⟩ <;>
        first
          | exact absurd rfl hphead
          | simpa [initState, greyColors, from_hex] using htex

theorem C6_witness :
    processItem envW greyColors smAll (initState envW greyColors smAll) hatItem
      = some (initState envW greyColors smAll) ∧
    processItem envE greyColors smAll (initState envE greyColors smAll) hatItem
      = some (initState envE greyColors smAll) ∧
    ∃ tr s, dispatch envW smAll
        { accessories := [hatItem], bodycolors := none, job_type := 2 } = some (tr, s) ∧
      s ≠ "" ∧
      (∀ m, DrawEvent.hat m ∉ tr) ∧
      (∀ p mq, DrawEvent.body p mq ∈ tr → p ≠ BodyPart.head →
        mq.texture = some (Texture.fromRgba8 1 1 (from_hex 0xBFBFBF))) :=
  ⟨C6_asset_failure_recovery.1 envW greyColors smAll (initState envW greyColors smAll)
      hatItem "hat.obj" rfl rfl (Or.inl rfl),
   C6_asset_failure_recovery.1 envE greyColors smAll (initState envE greyColors smAll)
      hatItem "hat.obj" rfl rfl (Or.inr rfl),
   C6_asset_failure_recovery.2 envW smAll hatItem "hat.obj" rfl rfl (by decide) rfl
     (by
       refine ⟨?_, ?_, ?_, ?_, ?_, ?_, ?_⟩ <;>
       · intro m hm
         injection hm with hmm
         rw [← hmm]
         decide)
     (by decide) (by decide) (by decide)⟩

/-- Claim C1 (code bug): a thumbnail job (kind 2) with an empty item
list drives the dispatcher into its `unreachable!()` arm — the render
thread panics and no reply is ever delivered, whatever the environment
and meshes. -/
theorem C1_empty_thumbnail_job_panics (env : Env) (sm : StaticMeshes)
    (bc : Option BodyColors) :
    dispatch env sm { accessories := [], bodycolors := bc, job_type := 2 } = none := rfl

/-- Claim C2 (counterexample): palette id 0 is not in the table, and
the kind-1 dispatcher substitutes the `u32` default 0 (black), not the
mid-grey `0xBFBFBF`, for it. -/
theorem C2_counterexample :
    from_brickcolor 0 = none ∧
    (resolveBodyColors
      { trso := 0, head := 0, lleg := 0, larm := 0, rarm := 0, rleg := 0 }).head = 0 ∧
    (0 : Nat) ≠ 0xBFBFBF :=
  ⟨by decide, by decide, by decide⟩

/-- Claim C2 (amended): for every ColorProfile, each body part whose
palette identifier is not in the table resolves to `none` and the
full-avatar dispatcher substitutes the `u32` default `0` as exactly
that part's colour — also in mixed profiles where the other parts are
known — while the mid-grey `0xBFBFBF` is the fixed palette of
thumbnail jobs. -/
theorem C2_unknown_palette_default (bc : BodyColors) :
    (from_brickcolor bc.head = none → (resolveBodyColors bc).head = 0) ∧
    (from_brickcolor bc.trso = none → (resolveBodyColors bc).trso = 0) ∧
    (from_brickcolor bc.larm = none → (resolveBodyColors bc).larm = 0) ∧
    (from_brickcolor bc.rarm = none → (resolveBodyColors bc).rarm = 0) ∧
    (from_brickcolor bc.lleg = none → (resolveBodyColors bc).lleg = 0) ∧
    (from_brickcolor bc.rleg = none → (resolveBodyColors bc).rleg = 0) ∧
    greyColors = { trso := 0xBFBFBF, head := 0xBFBFBF, lleg := 0xBFBFBF,
                   larm := 0xBFBFBF, rarm := 0xBFBFBF, rleg := 0xBFBFBF } ∧
    ∀ (env : Env) (sm : StaticMeshes) (acc : List ItemAsset),
      dispatch env sm { accessories := acc, bodycolors := some bc, job_type := 1 } =
        render_scene env acc (resolveBodyColors bc) sm := by
  refine ⟨?_, ?_, ?_, ?_, ?_, ?_, rfl, fun env sm acc => rfl⟩ <;>
    intro h <;> simp [resolveBodyColors, h]

theorem C2_witness :
    (resolveBodyColors
      { trso := 1001, head := 0, lleg := 1001, larm := 1001,
        rarm := 1001, rleg := 1001 }).head = 0 ∧
    greyColors = { trso := 0xBFBFBF, head := 0xBFBFBF, lleg := 0xBFBFBF,
                   larm := 0xBFBFBF, rarm := 0xBFBFBF, rleg := 0xBFBFBF } :=
  ⟨(C2_unknown_palette_default
      { trso := 1001, head := 0, lleg := 1001, larm := 1001,
        rarm := 1001, rleg := 1001 }).1 (by decide),
   (C2_unknown_palette_default
      { trso := 1001, head := 0, lleg := 1001, larm := 1001,
        rarm := 1001, rleg := 1001 }).2.2.2.2.2.2.1⟩

end AvatarServer
